import Mathlib

/-!
Verification of the intrusive singly-linked list sketched in
`intrusive-containers` (`linked_list.h`, `linked_list_v1.h`,
`linked_list_v2.h` and the two example files).

The embedding is shallow:

* machine addresses are mathematical integers (`Int`); field offsets are
  `Nat`; the `(int)` cast that `container_of` applies to
  `offsetof(T, field)` is modelled as two's-complement narrowing to a
  signed 32-bit integer;
* the compile-time identity tokens of `linked_list.h` (addresses of the
  per-field static members `T::field_tag`) are modelled as the
  (record name, field name) pair that determines the static member:
  distinct statics have distinct addresses;
* the marker-type names produced by the preprocessor in
  `linked_list_v2.h` are modelled by the token pasting the macro bodies
  actually perform;
* list state is explicit: a head's `first` pointer plus the `next`
  field of every item, keyed by item address;
* the bodies of `list_add` (v1-style headers) and `list_head::add` (v2)
  are empty in the source; the stubs are embedded exactly as written, as
  the identity on the list state.
-/

namespace IntrusiveList

/-- Identity token generated by `LIST_ITEM(T, field)` in `linked_list.h`:
the macro declares `static void * field##_tag;` inside the record and uses
`&(field##_tag)`, i.e. the address of the per-field static member
`T::field_tag`, as the `tag` template argument. Two distinct static
members have distinct addresses, so the token is determined by, and
injective in, the (record name, field name) pair. -/
def list_item_tag (record field : String) : String × String :=
  (record, field)

/-- Compile-time admissibility of `list_add(item, list)` from
`linked_list.h`: the template
`void list_add(list_item<T,tag> &, list_head<T,tag> &)` has a single
`tag` parameter, so argument deduction succeeds exactly when the item's
tag and the head's tag are the same token. -/
def list_add_typechecks (itemTag headTag : String × String) : Bool :=
  itemTag == headTag

/-- Marker type name produced by one expansion of `LIST_ITEM_2(inst)` in
`linked_list_v2.h`. The macro body is
`struct list_inst_ ## id { }; list_item<list_inst_ ## id>`: it pastes the
literal identifier `id`, not the parameter `inst`, so the parameter is
unused and every expansion produces the same name `list_inst_id`. -/
def list_item_2_marker (_inst : Nat) : String :=
  "list_inst_id"

/-- Marker type name `LIST_ITEM_2(inst)` would produce had its body pasted
the parameter `inst` (the `__LINE__` value routed through `LIST_ITEM` and
`LIST_ITEM_1`), as the documentation block in `linked_list_v2.h` and its
example clearly intend: one fresh marker per declaration line. -/
def list_item_2_marker_intended (inst : Nat) : String :=
  "list_inst_" ++ toString inst

/-- Compile-time admissibility of `head.add(item)` from
`linked_list_v2.h`: `list_head<T, inst>::add` accepts a
`list_item<T, inst> *`, so the call typechecks exactly when the item's
marker equals the head's marker. -/
def v2_add_typechecks (itemMarker headMarker : String) : Bool :=
  itemMarker == headMarker

/-- Two's-complement narrowing of a `size_t` value to a signed 32-bit
`int`: the value is reduced modulo 2^32 and reinterpreted in
[-2^31, 2^31). This models the `(int)` cast applied to
`offsetof(T, field)` in every `container_of` body. -/
def int32_of_size_t (n : Nat) : Int :=
  if n % 2 ^ 32 < 2 ^ 31 then ((n % 2 ^ 32 : Nat) : Int)
  else ((n % 2 ^ 32 : Nat) : Int) - 2 ^ 32

/-- Address of the field at byte offset `off` inside the record based at
address `base` (what `&r.field` evaluates to). -/
def field_addr (base : Int) (off : Nat) : Int :=
  base + (off : Int)

/-- `container_of` generated by `LIST_ITEM_IMPL(T, field)` in
`linked_list.h`: `(T*)((char*)item - (int)offsetof(T, field))`, with
`item` the argument address and `off` the value of
`offsetof(T, field)`. -/
def container_of (item : Int) (off : Nat) : Int :=
  item - int32_of_size_t off

/-- `container_of` generated by `CONTAINER_OF(T, field)` in
`linked_list_v1.h`: `(T*)((char*)item - (int)offsetof(T, field))`. -/
def container_of_v1 (item : Int) (off : Nat) : Int :=
  item - int32_of_size_t off

/-- State of one list: the head's `first` pointer and the `next` field of
every `list_item` instance, keyed by the item's address (`none` is the
null pointer). -/
structure list_state where
  first : Option Nat
  next : Nat → Option Nat

/-- `list_add` from `linked_list.h` (and `linked_list_v1.h`): the body is
empty (`// implement as needed`), so the call returns with the state
untouched. -/
def list_add (_item : Nat) (s : list_state) : list_state :=
  s

/-- `list_head::add` from `linked_list_v2.h`: the body is empty
(`/* implement me */`), so the call returns with the state untouched. -/
def list_head_add (_item : Nat) (s : list_state) : list_state :=
  s

/-- Modelled from the spec: `isEmpty(head)` is `head.first == none`; no
such function exists in the source. -/
def isEmpty (s : list_state) : Bool :=
  s.first == none

/-- The traversal loop of both example files,
`for (auto q = first; q; q = q->next)`, collecting the addresses
visited. The recursion is made structural by an explicit fuel bound; the
loop itself has none, so a run of the loop is faithfully reproduced by
any sufficiently large fuel. -/
def traverseFuel (next : Nat → Option Nat) : Option Nat → Nat → List Nat
  | _, 0 => []
  | none, _ => []
  | some a, f + 1 => a :: traverseFuel next (next a) f

/-- The successor chain starting at `c` visits exactly the addresses in
`l` and then reaches the null pointer: the finite acyclic chains of the
spec are exactly the `c` admitting such an `l`. -/
def isChain (next : Nat → Option Nat) : Option Nat → List Nat → Prop
  | c, [] => c = none
  | c, a :: l => c = some a ∧ isChain next (next a) l

/-- A head whose `first` was set to the null pointer, with no items
linked anywhere. -/
def empty_state : list_state :=
  ⟨none, fun _ => none⟩

/-- A `LIST_HEAD(T, field)` declared as a local variable, as in both
example files: `list_head` has no constructor and the declarations carry
no initializer, so `first` holds an indeterminate value. -/
def declared_head (indeterminate : Option Nat) : list_state :=
  ⟨indeterminate, fun _ => none⟩

/-! ### Shared lemmas -/

/-- For offsets below 2^31 the `(int)` cast is the identity. -/
theorem int32_of_size_t_eq (off : Nat) (h : off < 2 ^ 31) :
    int32_of_size_t off = (off : Int) := by
  have h32 : off < 2 ^ 32 := lt_trans h (by norm_num)
  unfold int32_of_size_t
  rw [Nat.mod_eq_of_lt h32, if_pos h]

/-- A chain is reproduced verbatim by the traversal loop given fuel at
least its length. -/
theorem traverse_of_isChain (next : Nat → Option Nat) :
    ∀ (l : List Nat) (c : Option Nat), isChain next c l →
      ∀ f, l.length ≤ f → traverseFuel next c f = l := by
  intro l
  induction l with
  | nil =>
    intro c hc f _
    have : c = none := hc
    subst this
    cases f <;> rfl
  | cons a l ih =>
    intro c hc f hf
    obtain ⟨hc1, hc2⟩ := hc
    subst hc1
    cases f with
    | zero => simp at hf
    | succ f =>
      have : traverseFuel next (next a) f = l :=
        ih (next a) hc2 f (Nat.le_of_succ_le_succ hf)
      simp [traverseFuel, this]

/-- The v1 tag mechanism is injective: distinct (record, field) pairs
give distinct tokens, and `list_add` template deduction accepts a pair
of tokens exactly when they are equal. -/
theorem list_item_tag_faithful (r1 f1 r2 f2 : String) :
    (list_item_tag r1 f1 = list_item_tag r2 f2 ↔ r1 = r2 ∧ f1 = f2)
    ∧ (list_add_typechecks (list_item_tag r1 f1) (list_item_tag r2 f2) = true
        ↔ list_item_tag r1 f1 = list_item_tag r2 f2) := by
  constructor
  · constructor
    · intro h
      exact Prod.mk.injEq r1 f1 r2 f2 ▸ h
    · rintro ⟨h1, h2⟩
      simp [list_item_tag, h1, h2]
  · simp [list_add_typechecks]

/-! ### Claims -/

/-- Claim C1: the claim says the identity tokens generated for two
distinct link fields of one record are always distinct and that
cross-field insertion is ill-typed. The `linked_list.h` mechanism
satisfies this, but the `LIST_ITEM` of `linked_list_v2.h` does not: its
`LIST_ITEM_2(inst)` body pastes the literal identifier `id` instead of
the parameter `inst`, so the `vip` declaration (line 12 of the v2
example) and the `hip` declaration (line 13) produce the identical
marker name, and a cross-field `add` call would deduce successfully —
contradicting the compile-time checks the v2 example itself asserts. -/
theorem v2_tokens_collide :
    list_item_2_marker 12 = list_item_2_marker 13
    ∧ v2_add_typechecks (list_item_2_marker 12) (list_item_2_marker 13) = true
    ∧ list_item_2_marker_intended 12 ≠ list_item_2_marker_intended 13 := by
  refine ⟨rfl, rfl, ?_⟩
  decide

/-- Claim C2 (corrected): recovery `container_of(&r.f) == &r` holds
whenever `offsetof(T, f)` is representable in a signed 32-bit `int`
(below 2^31); in particular the two recovery functions of a record with
fields `vip` and `hip`, applied to the two fields of the same record,
both return the record's base address. The unrestricted claim fails
because of the `(int)` narrowing — see the counterexample. -/
theorem recover_round_trip (base : Int) (off_vip off_hip : Nat)
    (h1 : off_vip < 2 ^ 31) (h2 : off_hip < 2 ^ 31) :
    container_of (field_addr base off_vip) off_vip = base
    ∧ container_of (field_addr base off_hip) off_hip = base := by
  constructor
  · simp [container_of, field_addr, int32_of_size_t_eq off_vip h1]
  · simp [container_of, field_addr, int32_of_size_t_eq off_hip h2]

/-- Claim C2, witness: concrete offsets 8 and 16 inside the record based
at address 100. -/
theorem recover_round_trip_witness :
    (8 : Nat) < 2 ^ 31 ∧ (16 : Nat) < 2 ^ 31
    ∧ (container_of (field_addr 100 8) 8 = 100
        ∧ container_of (field_addr 100 16) 16 = 100) :=
  ⟨by decide, by decide, recover_round_trip 100 8 16 (by decide) (by decide)⟩

/-- Claim C2, counterexample: for a record based at address 0 whose field
sits at byte offset 2^31 (legal for a sufficiently large record type),
the `(int)` cast turns the offset into -2^31 and `container_of` returns
2^32 instead of 0, so the claim as stated — for every record and field,
with no bound on the offset — is false of the code. -/
theorem recover_fails_at_large_offset :
    container_of (field_addr 0 (2 ^ 31)) (2 ^ 31) ≠ 0 := by
  norm_num [container_of, field_addr, int32_of_size_t]

/-- Claim C3: the claim says insertion sets the inserted item's
successor to the previous `head.first` and then redirects `head.first`
to the item. The `list_add` of `linked_list.h` and the `list_head::add`
of `linked_list_v2.h` have empty bodies: at the head whose `first`
points to the item at address 7, inserting the item at address 5 leaves
the successor of 5 null (not the previous `first`) and leaves `first`
pointing at 7 (not at 5), for both stubs. -/
theorem stub_add_does_not_push :
    (list_add 5 (⟨some 7, fun _ => none⟩ : list_state)).next 5 ≠ some 7
    ∧ (list_add 5 (⟨some 7, fun _ => none⟩ : list_state)).first ≠ some 5
    ∧ (list_head_add 5 (⟨some 7, fun _ => none⟩ : list_state)).next 5 ≠ some 7
    ∧ (list_head_add 5 (⟨some 7, fun _ => none⟩ : list_state)).first ≠ some 5 := by
  refine ⟨?_, ?_, ?_, ?_⟩ <;> decide

/-- Claim C8: the `list_add` of the v1-style headers and the
`list_head::add` of v2 have empty bodies: one call changes nothing, and
no sequence of calls ever changes any list's contents. -/
theorem list_add_noop (item : Nat) (items : List Nat) (s : list_state) :
    list_add item s = s
    ∧ list_head_add item s = s
    ∧ items.foldl (fun st i => list_add i st) s = s := by
  refine ⟨rfl, rfl, ?_⟩
  induction items with
  | nil => rfl
  | cons y ys ih => exact ih

/-- Claim C9: the recovery function generated by
`LIST_ITEM_IMPL(T, field)` in `linked_list.h` and the one generated by
`CONTAINER_OF(T, field)` in `linked_list_v1.h` have the same body,
`(T*)((char*)item - (int)offsetof(T, field))`, hence compute the same
record address for every item address and offset. -/
theorem container_of_versions_agree (item : Int) (off : Nat) :
    container_of item off = container_of_v1 item off :=
  rfl

/-- Claim C10: the `(int)` cast in `container_of` narrows the `size_t`
offset to a signed 32-bit value; for every offset representable in that
type the narrowing is the identity, the subtraction uses the exact
offset, and recovery is exact. -/
theorem narrow_offset_exact (base : Int) (off : Nat) (h : off < 2 ^ 31) :
    int32_of_size_t off = (off : Int)
    ∧ container_of (field_addr base off) off = base := by
  refine ⟨int32_of_size_t_eq off h, ?_⟩
  simp [container_of, field_addr, int32_of_size_t_eq off h]

/-- Claim C10, witness: offset 8 in the record based at address 100. -/
theorem narrow_offset_exact_witness :
    (8 : Nat) < 2 ^ 31
    ∧ (int32_of_size_t 8 = (8 : Int)
        ∧ container_of (field_addr 100 8) 8 = 100) :=
  ⟨by decide, narrow_offset_exact 100 8 (by decide)⟩

/-- Claim C5: the claim says a freshly declared head is empty and
traverses to zero items. `list_head` has no constructor and the example
declares heads as uninitialized locals, so `first` is indeterminate: for
the indeterminate value `some 7` the head is not empty and the traversal
loop visits an item. -/
theorem declared_head_not_empty :
    isEmpty (declared_head (some 7)) = false
    ∧ traverseFuel (declared_head (some 7)).next (declared_head (some 7)).first 2 ≠ [] := by
  constructor
  · rfl
  · simp [declared_head, traverseFuel]

/-- Claim C4: the claim says that after inserting distinct items
x1..xn into an initially empty head, traversal yields exact reverse
insertion order and the head is non-empty for n >= 1. The insertion the
program provides (`list_add`) has an empty body, so after inserting
1, 2, 3 in order the head is unchanged: traversal yields no items, not
3, 2, 1, and `isEmpty` is still true although n = 3. -/
theorem stub_insert_sequence_yields_nothing :
    [1, 2, 3].foldl (fun st i => list_add i st) empty_state = empty_state
    ∧ isEmpty ([1, 2, 3].foldl (fun st i => list_add i st) empty_state) = true
    ∧ traverseFuel ([1, 2, 3].foldl (fun st i => list_add i st) empty_state).next
        ([1, 2, 3].foldl (fun st i => list_add i st) empty_state).first 3 = []
    ∧ traverseFuel ([1, 2, 3].foldl (fun st i => list_add i st) empty_state).next
        ([1, 2, 3].foldl (fun st i => list_add i st) empty_state).first 3
        ≠ ([1, 2, 3] : List Nat).reverse :=
  ⟨rfl, rfl, rfl, by decide⟩

/-- Claim C6: the claim says that after inserting record `a` into the
`vip` list and record `b` into the `hip` list, each list contains
exactly the one record inserted into it. The insertion the program
provides (`list_add` for the v1-style headers, `list_head::add` for v2)
has an empty body, so after inserting record 1 into the `vip` list and
record 2 into the `hip` list both lists still traverse to no items at
all: the `vip` list does not contain record 1 and the `hip` list does
not contain record 2, so neither list contains the record inserted into
it (the never-yields-the-other-record halves hold only vacuously). -/
theorem stub_independence_fails :
    traverseFuel (list_add 1 empty_state).next (list_add 1 empty_state).first 2 = []
    ∧ traverseFuel (list_head_add 2 empty_state).next
        (list_head_add 2 empty_state).first 2 = []
    ∧ (1 : Nat) ∉ traverseFuel (list_add 1 empty_state).next
        (list_add 1 empty_state).first 2
    ∧ (2 : Nat) ∉ traverseFuel (list_head_add 2 empty_state).next
        (list_head_add 2 empty_state).first 2 := by
  refine ⟨rfl, rfl, ?_, ?_⟩ <;> decide

/-- Claim C7: on a finite acyclic successor chain (witnessed by the node
list `nodes`), the traversal loop terminates: any fuel of at least the
chain's length makes it stop at the null pointer, producing exactly the
finite sequence `nodes`. The remaining operations (`insert`,
`isEmpty`, `container_of`, `list_add`) are total functions of the state
by construction. -/
theorem traverse_terminates (next : Nat → Option Nat) (first : Option Nat)
    (nodes : List Nat) (h : isChain next first nodes) :
    ∀ f, nodes.length ≤ f → traverseFuel next first f = nodes :=
  traverse_of_isChain next nodes first h

/-- Claim C7, witness: the two-node chain 1 → 2 → null, traversed with
fuel 5. -/
theorem traverse_terminates_witness :
    isChain (fun x => if x = 1 then some 2 else none) (some 1) [1, 2]
    ∧ traverseFuel (fun x => if x = 1 then some 2 else none) (some 1) 5 = [1, 2] :=
  ⟨⟨rfl, rfl, rfl⟩,
    traverse_terminates (fun x => if x = 1 then some 2 else none) (some 1) [1, 2]
      ⟨rfl, rfl, rfl⟩ 5 (by decide)⟩

end IntrusiveList
